import Mathlib

/-!
Shallow embedding of the election swing projection engine of the
`electionanalytics` repository, over exact rationals (ℚ stands for the
JavaScript `number`; all the guarded divisions of the source are total here).

Embedded source:
- `src/unnamed/part_014`: `clamp`, `iowaMarginBinIndex`,
  `extrusionFromMarginIOWA`, `computeSharesAfterSwing`, `computeProjectedMargin`.
- `src/src/pages/RustBeltSwing3DPage.tsx`: `projectedSwing`,
  `computeStateProjectedMargin`, `computeCurrentStatewideMarginNoLocal`,
  the elasticity estimation inside `runSolver`, and `runSolver` itself.

Mutable React state (`demSwing`, `gopSwing`, `solverActive`,
`solverLocalSwingsRef`) is passed explicitly as a `SwingEnv`; the solver's
early returns that only set a status message are modelled as `Except` errors
(`InvalidTargetError` / `EmptyScopeError` in the spec's taxonomy), and the
successful path returns the `(solverLocalSwingsRef, solverActive)` pair it
writes. `baseMap` is a JavaScript `Map` keyed by `fips`, so the entry lists it
yields have pairwise distinct `fips`; per-entry weights and elasticities are
therefore computed directly instead of through the intermediate `wMap` /
`eMap` lookups (which coincide on such lists). The clamp-then-rescale step
and the solver-local lookup, textually repeated in the source, are factored
into `renormDG` and `solverLocalFor` with the formulas unchanged.
-/

namespace ElectionAnalytics

/-- `clamp` from `part_014`: `Math.max(lo, Math.min(hi, v))`. -/
def clampQ (v lo hi : ℚ) : ℚ := max lo (min hi v)

/-- One county baseline record (`CountyBaseline` in `RustBeltSwing3DPage.tsx`). -/
structure CountyBaseline where
  fips : String
  stateFips : String
  votesGop2024 : ℚ
  votesDem2024 : ℚ
  totalVotes2024 : ℚ
deriving DecidableEq, Repr

/-- `iowaMarginBinIndex` from `part_014`:
six buckets at thresholds 1, 5, 10, 20, 30 over `|absMargin|`. -/
def iowaMarginBinIndex (absMargin : ℚ) : ℕ :=
  let m := |absMargin|
  if m < 1 then 0 else if m < 5 then 1 else if m < 10 then 2
  else if m < 20 then 3 else if m < 30 then 4 else 5

/-- `extrusionFromMarginIOWA` from `part_014`: `1000 + (min(40,|m|)/40)*18000`. -/
def extrusionFromMarginIOWA (marginPct : ℚ) : ℚ :=
  let mag := min 40 |marginPct|
  1000 + (mag / 40) * 18000

/-- The renormalization step shared by `computeSharesAfterSwing` and
`projectedSwing`: if `dShare + gShare` exceeds 1, rescale both by
`1 / (dShare + gShare)`. Returns `(dShare, gShare)`. -/
def renormDG (dShare gShare : ℚ) : ℚ × ℚ :=
  let sumDG := dShare + gShare
  if 1 < sumDG then (dShare / sumDG, gShare / sumDG) else (dShare, gShare)

/-- `computeSharesAfterSwing` from `part_014`. Returns `(dShare, gShare)`:
additive swings in percentage points, clamp each share to `[0,1]`, then
rescale when the sum exceeds 1. -/
def computeSharesAfterSwing (dShare0 gShare0 demSwingPP gopSwingPP : ℚ) : ℚ × ℚ :=
  renormDG (clampQ (dShare0 + demSwingPP / 100) 0 1)
    (clampQ (gShare0 + gopSwingPP / 100) 0 1)

/-- `computeProjectedMargin` from `part_014`. Returns `(baseMargin, newMargin)`. -/
def computeProjectedMargin (demVotes gopVotes totalVotes demSwingPP gopSwingPP : ℚ)
    (localDemPP localGopPP : ℚ) : ℚ × ℚ :=
  let T := max 1 totalVotes
  let d0 := demVotes / T
  let g0 := gopVotes / T
  let baseMargin := (g0 - d0) * 100
  let s := computeSharesAfterSwing d0 g0 (demSwingPP + localDemPP) (gopSwingPP + localGopPP)
  (baseMargin, (s.2 - s.1) * 100)

/-- The mutable page state read by `projectedSwing` and the solver:
the two global party sliders, the `solverActive` flag, and the
`solverLocalSwingsRef` map (an association list `fips ↦ (demPP, gopPP)`). -/
structure SwingEnv where
  demSwing : ℚ
  gopSwing : ℚ
  solverActive : Bool
  locals : List (String × (ℚ × ℚ))
deriving DecidableEq, Repr

/-- The `(localDem, localGop)` pair `projectedSwing` reads from
`solverLocalSwingsRef`: zero unless the solver is active and a `fips` was
passed and is present in the map. -/
def solverLocalFor (env : SwingEnv) (fips? : Option String) : ℚ × ℚ :=
  match fips? with
  | some f => if env.solverActive then (env.locals.lookup f).getD (0, 0) else (0, 0)
  | none => (0, 0)

/-- Result object of `projectedSwing`. The early return for missing or
zero-turnout baselines carries no share fields, hence the `Option`s. -/
structure SwingOut where
  swing : ℚ
  newMargin : ℚ
  baseMargin : ℚ
  baseShares : Option (ℚ × ℚ)
  newShares : Option (ℚ × ℚ)
  localOut : Option (ℚ × ℚ)
deriving DecidableEq, Repr

/-- `projectedSwing(base?, fips?)` from `RustBeltSwing3DPage.tsx`.
Shares in the `Option` fields are `(g, d)` pairs; `localOut` is the
`(dem, gop)` local swing that was applied. -/
def projectedSwing (env : SwingEnv) (base? : Option CountyBaseline)
    (fips? : Option String) : SwingOut :=
  match base? with
  | none => ⟨0, 0, 0, none, none, none⟩
  | some base =>
    if base.totalVotes2024 ≤ 0 then ⟨0, 0, 0, none, none, none⟩
    else
      let gShare0 := base.votesGop2024 / max 1 base.totalVotes2024
      let dShare0 := base.votesDem2024 / max 1 base.totalVotes2024
      let baseMargin := (gShare0 - dShare0) * 100
      let loc := solverLocalFor env fips?
      let shares := renormDG (clampQ (dShare0 + env.demSwing / 100 + loc.1 / 100) 0 1)
        (clampQ (gShare0 + env.gopSwing / 100 + loc.2 / 100) 0 1)
      let newMargin := (shares.2 - shares.1) * 100
      ⟨newMargin - baseMargin, newMargin, baseMargin,
        some (gShare0, dShare0), some (shares.2, shares.1), some loc⟩

/-- `anySwing` on the page: `demSwing!==0 || gopSwing!==0 || solverActive`. -/
def anySwing (env : SwingEnv) : Bool :=
  decide (env.demSwing ≠ 0) || decide (env.gopSwing ≠ 0) || env.solverActive

/-- The margin each county contributes to `computeStateProjectedMargin`:
projected margin when any swing is active, baseline margin otherwise. -/
def marginUsed (env : SwingEnv) (b : CountyBaseline) : ℚ :=
  let r := projectedSwing env (some b) (some b.fips)
  if anySwing env then r.newMargin else r.baseMargin

/-- Aggregate turnout `T` of an entry list: `Σ max(0, totalVotes2024)`. -/
def totalTurnout (entries : List CountyBaseline) : ℚ :=
  (entries.map (fun b => max 0 b.totalVotes2024)).sum

/-- The entries with strictly positive turnout (the only ones that carry
weight in any aggregate). -/
def posTurnoutOnly (entries : List CountyBaseline) : List CountyBaseline :=
  entries.filter (fun b => decide (0 < b.totalVotes2024))

/-- The accumulated `sum` of the aggregation loop:
`Σ (margin_i / 100) * max(0, totalVotes_i)`. -/
def marginWeightedSum (env : SwingEnv) (entries : List CountyBaseline) : ℚ :=
  (entries.map (fun b => marginUsed env b / 100 * max 0 b.totalVotes2024)).sum

/-- `computeStateProjectedMargin` from `RustBeltSwing3DPage.tsx`, over the
already-filtered entry list of the state: turnout-weighted margin in pp. -/
def computeStateProjectedMargin (env : SwingEnv) (entries : List CountyBaseline) : ℚ :=
  if entries.isEmpty then 0
  else
    let T := totalTurnout entries
    let s := marginWeightedSum env entries
    if 0 < T then s / T * 100 else 0

/-- The margin `computeCurrentStatewideMarginNoLocal` uses per county:
`projectedSwing` with `fips = undefined` (no solver locals), projected iff a
global slider is non-zero. -/
def marginNoLocalUsed (env : SwingEnv) (b : CountyBaseline) : ℚ :=
  let r := projectedSwing env (some b) none
  if env.demSwing ≠ 0 ∨ env.gopSwing ≠ 0 then r.newMargin else r.baseMargin

/-- `computeCurrentStatewideMarginNoLocal` from `RustBeltSwing3DPage.tsx`. -/
def computeCurrentStatewideMarginNoLocal (env : SwingEnv)
    (entries : List CountyBaseline) : ℚ :=
  if entries.isEmpty then 0
  else
    let T := totalTurnout entries
    let s := (entries.map (fun b => marginNoLocalUsed env b / 100 * max 0 b.totalVotes2024)).sum
    if 0 < T then s / T * 100 else 0

/-- Baseline margin of one record as computed inside `runSolver` when
collecting a county's margin history: `(g0 - d0) * 100` with shares over
`max(1, totalVotes2024)`. -/
def marginQ (b : CountyBaseline) : ℚ :=
  (b.votesGop2024 / max 1 b.totalVotes2024 - b.votesDem2024 / max 1 b.totalVotes2024) * 100

/-- The margin history `runSolver` gathers for one `fips`: for each year map
(ascending), look the county up and keep its margin when `totalVotes2024 > 0`. -/
def marginsForFips (yearMaps : List (List (String × CountyBaseline))) (f : String) :
    List ℚ :=
  yearMaps.filterMap (fun ym =>
    match ym.lookup f with
    | some m => if 0 < m.totalVotes2024 then some (marginQ m) else none
    | none => none)

/-- Absolute changes between consecutive margins:
`|margins[i] - margins[i-1]|` for `i = 1 .. n-1`. -/
def consecAbsDeltas : List ℚ → List ℚ
  | a :: b :: rest => |b - a| :: consecAbsDeltas (b :: rest)
  | _ => []

/-- Elasticity from a margin history, as in `runSolver`: `1` for fewer than
two usable cycles, else `clamp(0.5 + avgAbsDelta/5, 0.5, 3)`. -/
def elasticityFromMargins (margins : List ℚ) : ℚ :=
  if 2 ≤ margins.length then
    let sumAbs := (consecAbsDeltas margins).sum
    let cnt : ℚ := (margins.length - 1 : ℕ)
    let avg := sumAbs / cnt
    max (1/2) (min 3 (1/2 + avg / 5))
  else 1

/-- Per-county elasticity `eMap.get(fips)` built by `runSolver` from the
multi-year baseline maps. -/
def estimateElasticity (yearMaps : List (List (String × CountyBaseline)))
    (f : String) : ℚ :=
  elasticityFromMargins (marginsForFips yearMaps f)

/-- Solver distribution mode. -/
inductive SolverMode
  | uniform
  | elastic
deriving DecidableEq, Repr

/-- The spec's typed-error taxonomy for the two aborting status returns of
`runSolver`: unparseable target, and empty / zero-turnout scope. -/
inductive SolverError
  | invalidTarget
  | emptyScope
deriving DecidableEq, Repr

/-- What `runSolver` writes on a non-error path: the contents of
`solverLocalSwingsRef` (an association list `fips ↦ (demPP, gopPP)`) and the
`solverActive` flag. -/
structure SolverResult where
  locals : List (String × (ℚ × ℚ))
  active : Bool
deriving DecidableEq, Repr

/-- Effective elasticity factor `e` used for one entry:
`solverMode === 'elastic' ? eMap.get(fips) : 1`. -/
def effElast (mode : SolverMode) (yearMaps : List (List (String × CountyBaseline)))
    (b : CountyBaseline) : ℚ :=
  match mode with
  | .uniform => 1
  | .elastic => estimateElasticity yearMaps b.fips

/-- The solver's `denom` accumulator before the guard:
`Σ w_i * e_i` with `w_i = max(0, totalVotes_i) / T`. -/
def solverDenom (mode : SolverMode) (yearMaps : List (List (String × CountyBaseline)))
    (entries : List CountyBaseline) : ℚ :=
  (entries.map (fun b =>
    (max 0 b.totalVotes2024 / totalTurnout entries) * effElast mode yearMaps b)).sum

/-- The solver's `denom` after its `denom <= 0` guard (substitute 1). -/
def solverDenomGuarded (mode : SolverMode)
    (yearMaps : List (List (String × CountyBaseline)))
    (entries : List CountyBaseline) : ℚ :=
  let d := solverDenom mode yearMaps entries
  if d ≤ 0 then 1 else d

/-- Per-county margin change `dCounty = delta * e / denom` in pp. -/
def dCountyOf (mode : SolverMode) (yearMaps : List (List (String × CountyBaseline)))
    (entries : List CountyBaseline) (delta : ℚ) (b : CountyBaseline) : ℚ :=
  delta * effElast mode yearMaps b / solverDenomGuarded mode yearMaps entries

/-- `runSolver` from `RustBeltSwing3DPage.tsx`. `target?` is the result of
`parseFloat` on the target field (`none` = non-finite). The order of the
early returns follows the source: non-finite target, then the `|delta| < 0.05`
no-op (which clears the solver), then empty entries, then zero turnout; the
success branch stores `{dem: -dCounty/2, gop: dCounty/2}` per county and
activates the solver. -/
def runSolver (mode : SolverMode) (target? : Option ℚ) (env : SwingEnv)
    (yearMaps : List (List (String × CountyBaseline)))
    (entries : List CountyBaseline) : Except SolverError SolverResult :=
  match target? with
  | none => .error .invalidTarget
  | some target =>
    let current := computeCurrentStatewideMarginNoLocal env entries
    let delta := target - current
    if |delta| < 1/20 then .ok { locals := [], active := false }
    else if entries.isEmpty then .error .emptyScope
    else if totalTurnout entries ≤ 0 then .error .emptyScope
    else
      .ok ⟨entries.map (fun b =>
        (b.fips, (-(dCountyOf mode yearMaps entries delta b / 2),
          dCountyOf mode yearMaps entries delta b / 2))), true⟩

/-- Turnout weight `w_i = max(0, totalVotes) / T` of one entry in a scope. -/
def weightOf (entries : List CountyBaseline) (b : CountyBaseline) : ℚ :=
  max 0 b.totalVotes2024 / totalTurnout entries

/-- The per-unit margin delta encoded in one solver allocation entry
`(fips, (demPP, gopPP))`: `gopPP - demPP` (the symmetric ±half split makes
this the margin change in pp). -/
def dUnitOf (l : String × (ℚ × ℚ)) : ℚ := l.2.2 - l.2.1

/-- The local swing a solver result applies to a county: the map lookup when
the solver is active, zero otherwise (mirrors how `projectedSwing` reads
`solverLocalSwingsRef`). -/
def appliedLocal (res : SolverResult) (f : String) : ℚ × ℚ :=
  if res.active then (res.locals.lookup f).getD (0, 0) else (0, 0)

/-! ### Helper lemmas -/

lemma clampQ_nonneg (v : ℚ) : 0 ≤ clampQ v 0 1 := le_max_left _ _

lemma clampQ_le_one (v : ℚ) : clampQ v 0 1 ≤ 1 :=
  max_le (by norm_num) (min_le_left _ _)

lemma clampQ_eq_self {v : ℚ} (h0 : 0 ≤ v) (h1 : v ≤ 1) : clampQ v 0 1 = v := by
  unfold clampQ
  rw [min_eq_right h1, max_eq_right h0]

lemma renormDG_bounds {d g : ℚ} (hd0 : 0 ≤ d) (hd1 : d ≤ 1) (hg0 : 0 ≤ g)
    (hg1 : g ≤ 1) :
    0 ≤ (renormDG d g).1 ∧ (renormDG d g).1 ≤ 1 ∧
    0 ≤ (renormDG d g).2 ∧ (renormDG d g).2 ≤ 1 ∧
    (renormDG d g).1 + (renormDG d g).2 ≤ 1 := by
  unfold renormDG
  by_cases h : 1 < d + g
  · have hs : (0 : ℚ) < d + g := lt_trans one_pos h
    simp only [if_pos h]
    refine ⟨div_nonneg hd0 hs.le, ?_, div_nonneg hg0 hs.le, ?_, ?_⟩
    · rw [div_le_one hs]; linarith
    · rw [div_le_one hs]; linarith
    · rw [div_add_div_same, div_le_one hs]
  · simp only [if_neg h]
    exact ⟨hd0, hd1, hg0, hg1, not_lt.mp h⟩

lemma computeSharesAfterSwing_bounds (d0 g0 dpp gpp : ℚ) :
    0 ≤ (computeSharesAfterSwing d0 g0 dpp gpp).1 ∧
    (computeSharesAfterSwing d0 g0 dpp gpp).1 ≤ 1 ∧
    0 ≤ (computeSharesAfterSwing d0 g0 dpp gpp).2 ∧
    (computeSharesAfterSwing d0 g0 dpp gpp).2 ≤ 1 ∧
    (computeSharesAfterSwing d0 g0 dpp gpp).1 +
      (computeSharesAfterSwing d0 g0 dpp gpp).2 ≤ 1 :=
  renormDG_bounds (clampQ_nonneg _) (clampQ_le_one _)
    (clampQ_nonneg _) (clampQ_le_one _)

/-- `projectedSwing` on a present baseline with positive turnout, written
with the intermediate shares named. -/
lemma projectedSwing_pos (env : SwingEnv) (b : CountyBaseline) (f? : Option String)
    (ht : ¬ b.totalVotes2024 ≤ 0) :
    projectedSwing env (some b) f? =
      (let gShare0 := b.votesGop2024 / max 1 b.totalVotes2024
       let dShare0 := b.votesDem2024 / max 1 b.totalVotes2024
       let baseMargin := (gShare0 - dShare0) * 100
       let loc := solverLocalFor env f?
       let shares := renormDG (clampQ (dShare0 + env.demSwing / 100 + loc.1 / 100) 0 1)
         (clampQ (gShare0 + env.gopSwing / 100 + loc.2 / 100) 0 1)
       let newMargin := (shares.2 - shares.1) * 100
       ⟨newMargin - baseMargin, newMargin, baseMargin,
         some (gShare0, dShare0), some (shares.2, shares.1), some loc⟩) := by
  simp only [projectedSwing, if_neg ht]

/-! ### Claim theorems -/

/-- C2: for every baseline share pair and every combination of global and
local percentage-point deltas, the projected shares are each in `[0,1]` and
sum to at most 1: both for the shared `computeSharesAfterSwing` helper and
for the share pair `projectedSwing` returns. -/
theorem C2_share_bounds :
    (∀ d0 g0 dpp gpp : ℚ,
      0 ≤ (computeSharesAfterSwing d0 g0 dpp gpp).2 ∧
      (computeSharesAfterSwing d0 g0 dpp gpp).2 ≤ 1 ∧
      0 ≤ (computeSharesAfterSwing d0 g0 dpp gpp).1 ∧
      (computeSharesAfterSwing d0 g0 dpp gpp).1 ≤ 1 ∧
      (computeSharesAfterSwing d0 g0 dpp gpp).2 +
        (computeSharesAfterSwing d0 g0 dpp gpp).1 ≤ 1) ∧
    (∀ (env : SwingEnv) (b : CountyBaseline) (f? : Option String) (g d : ℚ),
      (projectedSwing env (some b) f?).newShares = some (g, d) →
      0 ≤ g ∧ g ≤ 1 ∧ 0 ≤ d ∧ d ≤ 1 ∧ g + d ≤ 1) := by
  constructor
  · intro d0 g0 dpp gpp
    obtain ⟨h1, h2, h3, h4, h5⟩ := computeSharesAfterSwing_bounds d0 g0 dpp gpp
    exact ⟨h3, h4, h1, h2, by linarith⟩
  · intro env b f? g d h
    by_cases ht : b.totalVotes2024 ≤ 0
    · simp [projectedSwing, ht] at h
    · rw [projectedSwing_pos env b f? ht] at h
      simp only [Option.some.injEq, Prod.mk.injEq] at h
      obtain ⟨hg, hd⟩ := h
      obtain ⟨h1, h2, h3, h4, h5⟩ := renormDG_bounds
        (clampQ_nonneg (b.votesDem2024 / max 1 b.totalVotes2024 + env.demSwing / 100 +
          (solverLocalFor env f?).1 / 100))
        (clampQ_le_one _) (clampQ_nonneg _)
        (clampQ_le_one (b.votesGop2024 / max 1 b.totalVotes2024 + env.gopSwing / 100 +
          (solverLocalFor env f?).2 / 100))
      subst hg hd
      exact ⟨h3, h4, h1, h2, by linarith⟩

/-- C2 witness: a concrete renormalizing instance of both conjuncts. -/
theorem C2_share_bounds_witness :
    (0 ≤ (computeSharesAfterSwing (8/10) (9/10) 0 0).2 ∧
      (computeSharesAfterSwing (8/10) (9/10) 0 0).2 ≤ 1 ∧
      0 ≤ (computeSharesAfterSwing (8/10) (9/10) 0 0).1 ∧
      (computeSharesAfterSwing (8/10) (9/10) 0 0).1 ≤ 1 ∧
      (computeSharesAfterSwing (8/10) (9/10) 0 0).2 +
        (computeSharesAfterSwing (8/10) (9/10) 0 0).1 ≤ 1) ∧
    (0 ≤ (9/17 : ℚ) ∧ (9/17 : ℚ) ≤ 1 ∧ 0 ≤ (8/17 : ℚ) ∧ (8/17 : ℚ) ≤ 1 ∧
      (9/17 : ℚ) + 8/17 ≤ 1) :=
  ⟨C2_share_bounds.1 (8/10) (9/10) 0 0,
    C2_share_bounds.2 ⟨0, 0, false, []⟩ ⟨"A", "42", 90, 80, 100⟩ none (9/17) (8/17)
      (by norm_num [projectedSwing, solverLocalFor, renormDG, clampQ])⟩

/-- C7: a baseline with `totalVotes <= 0` projects to the silent degenerate
result — zero swing, zero base margin, zero new margin and no share data —
for every slider setting and every solver state, exactly as a missing
baseline does; the transform is a total function, so no input raises an
error. -/
theorem C7_zero_turnout_silent (env : SwingEnv) (b : CountyBaseline)
    (f? : Option String) (h : b.totalVotes2024 ≤ 0) :
    projectedSwing env (some b) f? = ⟨0, 0, 0, none, none, none⟩ ∧
    projectedSwing env none f? = ⟨0, 0, 0, none, none, none⟩ := by
  constructor
  · simp [projectedSwing, h]
  · rfl

/-- C7 witness: a zero-turnout county under non-trivial sliders. -/
theorem C7_zero_turnout_silent_witness :
    projectedSwing ⟨3, -2, false, []⟩ (some ⟨"Z", "42", 0, 0, 0⟩) (some "Z")
      = ⟨0, 0, 0, none, none, none⟩ :=
  (C7_zero_turnout_silent ⟨3, -2, false, []⟩ ⟨"Z", "42", 0, 0, 0⟩ (some "Z")
    (by norm_num)).1

/-- C8: whenever the clamped shares sum to more than 1, the rescale by
`1/(dShare+gShare)` preserves the quotient `gShare/dShare` exactly (stated
against the post-clamp, pre-rescale values, for non-zero `dShare`). -/
theorem C8_renorm_preserves_share_quotient (d0 g0 dpp gpp : ℚ)
    (hsum : 1 < clampQ (d0 + dpp / 100) 0 1 + clampQ (g0 + gpp / 100) 0 1)
    (hd : clampQ (d0 + dpp / 100) 0 1 ≠ 0) :
    (computeSharesAfterSwing d0 g0 dpp gpp).2 / (computeSharesAfterSwing d0 g0 dpp gpp).1
      = clampQ (g0 + gpp / 100) 0 1 / clampQ (d0 + dpp / 100) 0 1 := by
  have hs : (0 : ℚ) < clampQ (d0 + dpp / 100) 0 1 + clampQ (g0 + gpp / 100) 0 1 :=
    lt_trans one_pos hsum
  unfold computeSharesAfterSwing renormDG
  simp only [if_pos hsum]
  exact div_div_div_cancel_right₀ (ne_of_gt hs) _ _

/-- C8 witness: shares 0.8 and 0.9 renormalize to 8/17 and 9/17, keeping the
quotient 9/8. -/
theorem C8_renorm_preserves_share_quotient_witness :
    (computeSharesAfterSwing (8/10) (9/10) 0 0).2 /
        (computeSharesAfterSwing (8/10) (9/10) 0 0).1
      = clampQ ((9:ℚ)/10 + 0 / 100) 0 1 / clampQ ((8:ℚ)/10 + 0 / 100) 0 1 :=
  C8_renorm_preserves_share_quotient (8/10) (9/10) 0 0
    (by norm_num [clampQ]) (by norm_num [clampQ])

/-- C9: the color bucket index follows the fixed thresholds 1, 5, 10, 20, 30
on `|m|` and always lies in `[0,5]`, and the extrusion height is the linear
ramp `1000 + (min(40,|m|)/40) * 18000`. -/
theorem C9_visual_encoding (m : ℚ) :
    (|m| < 1 → iowaMarginBinIndex m = 0) ∧
    (1 ≤ |m| → |m| < 5 → iowaMarginBinIndex m = 1) ∧
    (5 ≤ |m| → |m| < 10 → iowaMarginBinIndex m = 2) ∧
    (10 ≤ |m| → |m| < 20 → iowaMarginBinIndex m = 3) ∧
    (20 ≤ |m| → |m| < 30 → iowaMarginBinIndex m = 4) ∧
    (30 ≤ |m| → iowaMarginBinIndex m = 5) ∧
    iowaMarginBinIndex m ≤ 5 ∧
    extrusionFromMarginIOWA m = 1000 + (min 40 |m| / 40) * 18000 := by
  refine ⟨?_, ?_, ?_, ?_, ?_, ?_, ?_, rfl⟩
  · intro h1
    simp [iowaMarginBinIndex, h1]
  · intro h1 h2
    simp [iowaMarginBinIndex, not_lt.mpr h1, h2]
  · intro h1 h2
    have n1 : ¬ |m| < 1 := not_lt.mpr (by linarith)
    simp [iowaMarginBinIndex, n1, not_lt.mpr h1, h2]
  · intro h1 h2
    have n1 : ¬ |m| < 1 := not_lt.mpr (by linarith)
    have n5 : ¬ |m| < 5 := not_lt.mpr (by linarith)
    simp [iowaMarginBinIndex, n1, n5, not_lt.mpr h1, h2]
  · intro h1 h2
    have n1 : ¬ |m| < 1 := not_lt.mpr (by linarith)
    have n5 : ¬ |m| < 5 := not_lt.mpr (by linarith)
    have n10 : ¬ |m| < 10 := not_lt.mpr (by linarith)
    simp [iowaMarginBinIndex, n1, n5, n10, not_lt.mpr h1, h2]
  · intro h1
    have n1 : ¬ |m| < 1 := not_lt.mpr (by linarith)
    have n5 : ¬ |m| < 5 := not_lt.mpr (by linarith)
    have n10 : ¬ |m| < 10 := not_lt.mpr (by linarith)
    have n20 : ¬ |m| < 20 := not_lt.mpr (by linarith)
    simp [iowaMarginBinIndex, n1, n5, n10, n20, not_lt.mpr h1]
  · simp only [iowaMarginBinIndex]
    split_ifs <;> norm_num

/-- C9 witness: a margin of −7pp sits in bucket 2 and extrudes to
`1000 + (7/40) * 18000`. -/
theorem C9_visual_encoding_witness :
    iowaMarginBinIndex (-7) = 2 ∧
    extrusionFromMarginIOWA (-7) = 1000 + (min 40 |(-7 : ℚ)| / 40) * 18000 :=
  ⟨(C9_visual_encoding (-7)).2.2.1 (by norm_num) (by norm_num),
    (C9_visual_encoding (-7)).2.2.2.2.2.2.2⟩

/-- C10: with `totalVotes >= 1`, non-negative party votes and
`dem + gop <= totalVotes`, a projection with all deltas zero leaves the
margin unchanged (`newMargin = baseMargin` exactly); dropping the
`dem + gop <= totalVotes` precondition breaks this — at
`(dem, gop, total) = (80, 90, 100)` a zero-delta projection renormalizes and
moves the margin. -/
theorem C10_zero_swing_identity :
    (∀ dem gop total : ℚ, 1 ≤ total → 0 ≤ dem → 0 ≤ gop → dem + gop ≤ total →
      (computeProjectedMargin dem gop total 0 0 0 0).2
        = (computeProjectedMargin dem gop total 0 0 0 0).1) ∧
    (computeProjectedMargin 80 90 100 0 0 0 0).2
      ≠ (computeProjectedMargin 80 90 100 0 0 0 0).1 := by
  constructor
  · intro dem gop total h1 hdem hgop hsum
    have htot : (0 : ℚ) < total := lt_of_lt_of_le one_pos h1
    have hT : max 1 total = total := max_eq_right h1
    have hd1 : dem / total ≤ 1 := (div_le_one htot).mpr (by linarith)
    have hg1 : gop / total ≤ 1 := (div_le_one htot).mpr (by linarith)
    have hd0 : 0 ≤ dem / total := div_nonneg hdem htot.le
    have hg0 : 0 ≤ gop / total := div_nonneg hgop htot.le
    have hsum1 : dem / total + gop / total ≤ 1 := by
      rw [div_add_div_same]
      exact (div_le_one htot).mpr hsum
    have key : computeSharesAfterSwing (dem / total) (gop / total) (0 + 0) (0 + 0)
        = (dem / total, gop / total) := by
      unfold computeSharesAfterSwing
      norm_num
      rw [clampQ_eq_self hd0 hd1, clampQ_eq_self hg0 hg1]
      unfold renormDG
      simp [not_lt.mpr hsum1]
    simp only [computeProjectedMargin, hT, key]
  · norm_num [computeProjectedMargin, computeSharesAfterSwing, renormDG, clampQ]

/-- C10 witness: the 45/55/1000-style baseline of the spec scaled to
turnout 100; the zero scenario reproduces the +10pp margin. -/
theorem C10_zero_swing_identity_witness :
    (computeProjectedMargin 45 55 100 0 0 0 0).2
      = (computeProjectedMargin 45 55 100 0 0 0 0).1 :=
  C10_zero_swing_identity.1 45 55 100 (by norm_num) (by norm_num) (by norm_num)
    (by norm_num)

lemma totalTurnout_cons (a : CountyBaseline) (l : List CountyBaseline) :
    totalTurnout (a :: l) = max 0 a.totalVotes2024 + totalTurnout l := by
  simp [totalTurnout]

lemma totalTurnout_nonneg (entries : List CountyBaseline) :
    0 ≤ totalTurnout entries := by
  induction entries with
  | nil => simp [totalTurnout]
  | cons a l ih =>
    rw [totalTurnout_cons]
    exact add_nonneg (le_max_left _ _) ih

lemma posTurnoutOnly_totalTurnout (entries : List CountyBaseline) :
    totalTurnout (posTurnoutOnly entries) = totalTurnout entries := by
  induction entries with
  | nil => rfl
  | cons a l ih =>
    by_cases h : 0 < a.totalVotes2024
    · rw [posTurnoutOnly, List.filter_cons_of_pos (by simpa using h)]
      rw [totalTurnout_cons, totalTurnout_cons, ← posTurnoutOnly, ih]
    · rw [posTurnoutOnly, List.filter_cons_of_neg (by simpa using h)]
      rw [totalTurnout_cons, ← posTurnoutOnly, ih,
        max_eq_left (not_lt.mp h), zero_add]

lemma marginWeightedSum_cons (env : SwingEnv) (a : CountyBaseline)
    (l : List CountyBaseline) :
    marginWeightedSum env (a :: l)
      = marginUsed env a / 100 * max 0 a.totalVotes2024 + marginWeightedSum env l := by
  simp [marginWeightedSum]

lemma posTurnoutOnly_marginWeightedSum (env : SwingEnv)
    (entries : List CountyBaseline) :
    marginWeightedSum env (posTurnoutOnly entries) = marginWeightedSum env entries := by
  induction entries with
  | nil => rfl
  | cons a l ih =>
    by_cases h : 0 < a.totalVotes2024
    · rw [posTurnoutOnly, List.filter_cons_of_pos (by simpa using h)]
      rw [marginWeightedSum_cons, marginWeightedSum_cons, ← posTurnoutOnly, ih]
    · rw [posTurnoutOnly, List.filter_cons_of_neg (by simpa using h)]
      rw [marginWeightedSum_cons, ← posTurnoutOnly, ih,
        max_eq_left (not_lt.mp h), mul_zero, zero_add]

/-- C3: the aggregate margin is `Σ(margin_i * turnout_i) / Σ(turnout_i)`
(projected margin iff a swing is active, baseline turnout weights);
zero-turnout units can be dropped without changing the aggregate; and an
empty or zero-turnout scope aggregates to 0. -/
theorem C3_aggregation (env : SwingEnv) (entries : List CountyBaseline)
    (h : ∀ b ∈ entries, 0 ≤ b.totalVotes2024) :
    (0 < totalTurnout entries →
      computeStateProjectedMargin env entries
        = (entries.map (fun b => marginUsed env b * b.totalVotes2024)).sum
            / (entries.map (fun b => b.totalVotes2024)).sum) ∧
    computeStateProjectedMargin env entries
      = computeStateProjectedMargin env (posTurnoutOnly entries) ∧
    (totalTurnout entries ≤ 0 → computeStateProjectedMargin env entries = 0) := by
  refine ⟨?_, ?_, ?_⟩
  · intro hT
    have hne : entries.isEmpty = false := by
      cases entries with
      | nil => simp [totalTurnout] at hT
      | cons a l => rfl
    have hden : totalTurnout entries = (entries.map (fun b => b.totalVotes2024)).sum := by
      rw [totalTurnout]
      exact congrArg List.sum
        (List.map_congr_left (fun b hb => max_eq_right (h b hb)))
    have hnum : (entries.map (fun b => marginUsed env b * b.totalVotes2024)).sum
        = marginWeightedSum env entries * 100 := by
      rw [marginWeightedSum, ← List.sum_map_mul_right]
      exact congrArg List.sum
        (List.map_congr_left (fun b hb => by rw [max_eq_right (h b hb)]; ring))
    simp only [computeStateProjectedMargin, hne, Bool.false_eq_true, if_false,
      if_pos hT]
    rw [hnum, ← hden]
    ring
  · by_cases he : entries.isEmpty
    · have : entries = [] := by
        cases entries with
        | nil => rfl
        | cons a l => simp at he
      rw [this]
      rfl
    · by_cases hf : (posTurnoutOnly entries).isEmpty
      · have hfnil : posTurnoutOnly entries = [] := by
          cases hp : posTurnoutOnly entries with
          | nil => rfl
          | cons a l => rw [hp] at hf; simp at hf
        have hT0 : totalTurnout entries = 0 := by
          rw [← posTurnoutOnly_totalTurnout, hfnil]
          rfl
        simp [computeStateProjectedMargin, he, hf, hT0]
      · simp only [computeStateProjectedMargin, he, hf, Bool.false_eq_true, if_false]
        rw [posTurnoutOnly_totalTurnout, posTurnoutOnly_marginWeightedSum]
  · intro hT
    by_cases he : entries.isEmpty
    · simp [computeStateProjectedMargin, he]
    · simp [computeStateProjectedMargin, he, not_lt.mpr hT]

/-- C3 witness: two counties with turnouts 100 and 300 and baseline margins
+10pp and −10pp aggregate, with no swing active, to −5pp; the weighted-ratio
form of the theorem applies with positive total turnout. -/
theorem C3_aggregation_witness :
    (computeStateProjectedMargin ⟨0, 0, false, []⟩
        [⟨"A", "42", 55, 45, 100⟩, ⟨"B", "42", 135, 165, 300⟩]
      = ([⟨"A", "42", 55, 45, 100⟩, ⟨"B", "42", 135, 165, 300⟩].map
            (fun b => marginUsed ⟨0, 0, false, []⟩ b * b.totalVotes2024)).sum
          / ([(⟨"A", "42", 55, 45, 100⟩ : CountyBaseline),
              ⟨"B", "42", 135, 165, 300⟩].map (fun b => b.totalVotes2024)).sum) ∧
    computeStateProjectedMargin ⟨0, 0, false, []⟩
        [⟨"A", "42", 55, 45, 100⟩, ⟨"B", "42", 135, 165, 300⟩] = -5 := by
  have h := C3_aggregation ⟨0, 0, false, []⟩
    [⟨"A", "42", 55, 45, 100⟩, ⟨"B", "42", 135, 165, 300⟩]
    (by
      intro b hb
      simp only [List.mem_cons, List.not_mem_nil, or_false] at hb
      rcases hb with rfl | rfl <;> norm_num)
  refine ⟨h.1 (by norm_num [totalTurnout]), ?_⟩
  norm_num [computeStateProjectedMargin, marginWeightedSum, marginUsed, anySwing,
    projectedSwing, solverLocalFor, renormDG, clampQ, totalTurnout]

lemma elasticityFromMargins_mem (margins : List ℚ) :
    1/2 ≤ elasticityFromMargins margins ∧ elasticityFromMargins margins ≤ 3 := by
  unfold elasticityFromMargins
  by_cases h : 2 ≤ margins.length
  · simp only [if_pos h]
    exact ⟨le_max_left _ _, max_le (by norm_num) (min_le_left _ _)⟩
  · simp only [if_neg h]
    norm_num

lemma effElast_ge_half (mode : SolverMode)
    (yearMaps : List (List (String × CountyBaseline))) (b : CountyBaseline) :
    1/2 ≤ effElast mode yearMaps b := by
  cases mode with
  | uniform => norm_num [effElast]
  | elastic =>
    simpa [effElast, estimateElasticity] using
      (elasticityFromMargins_mem (marginsForFips yearMaps b.fips)).1

lemma sum_weights (entries : List CountyBaseline) (hT : 0 < totalTurnout entries) :
    (entries.map (fun b => max 0 b.totalVotes2024 / totalTurnout entries)).sum = 1 := by
  have hmm : (entries.map (fun b => max 0 b.totalVotes2024 / totalTurnout entries))
      = entries.map (fun b => max 0 b.totalVotes2024 * (totalTurnout entries)⁻¹) := by
    simp [div_eq_mul_inv]
  rw [hmm, List.sum_map_mul_right, ← totalTurnout, mul_inv_cancel₀ (ne_of_gt hT)]

lemma solverDenom_ge_half (mode : SolverMode)
    (yearMaps : List (List (String × CountyBaseline)))
    (entries : List CountyBaseline) (hT : 0 < totalTurnout entries) :
    1/2 ≤ solverDenom mode yearMaps entries := by
  have hstep : ∀ b ∈ entries,
      max 0 b.totalVotes2024 / totalTurnout entries * (1/2)
        ≤ max 0 b.totalVotes2024 / totalTurnout entries * effElast mode yearMaps b := by
    intro b _
    exact mul_le_mul_of_nonneg_left (effElast_ge_half mode yearMaps b)
      (div_nonneg (le_max_left _ _) hT.le)
  calc (1/2 : ℚ)
      = (entries.map (fun b =>
          max 0 b.totalVotes2024 / totalTurnout entries * (1/2))).sum := by
        rw [List.sum_map_mul_right, sum_weights entries hT, one_mul]
    _ ≤ solverDenom mode yearMaps entries := List.sum_le_sum hstep

lemma solverDenom_pos (mode : SolverMode)
    (yearMaps : List (List (String × CountyBaseline)))
    (entries : List CountyBaseline) (hT : 0 < totalTurnout entries) :
    0 < solverDenom mode yearMaps entries :=
  lt_of_lt_of_le (by norm_num) (solverDenom_ge_half mode yearMaps entries hT)

lemma solverDenomGuarded_eq (mode : SolverMode)
    (yearMaps : List (List (String × CountyBaseline)))
    (entries : List CountyBaseline) (hT : 0 < totalTurnout entries) :
    solverDenomGuarded mode yearMaps entries = solverDenom mode yearMaps entries := by
  unfold solverDenomGuarded
  rw [if_neg (not_le.mpr (solverDenom_pos mode yearMaps entries hT))]

lemma zip_map_eval {α β : Type} (l : List α) (f : α → β) (g : α → β → ℚ) :
    ((l.zip (l.map f)).map (fun p => g p.1 p.2)).sum
      = (l.map (fun a => g a (f a))).sum := by
  induction l with
  | nil => rfl
  | cons a t ih => simp [ih]

lemma dUnitOf_pair (f : String) (x : ℚ) : dUnitOf (f, (-(x / 2), x / 2)) = x := by
  simp [dUnitOf]

/-- C4: the elasticity estimate is `1` when fewer than two cycles with
positive turnout are available, and otherwise is
`clamp(0.5 + avgAbsDelta/5, 0.5, 3)` over the mean absolute change between
consecutive usable cycle margins; in all cases it lies in `[0.5, 3]`. -/
theorem C4_elasticity (yearMaps : List (List (String × CountyBaseline)))
    (f : String) :
    ((marginsForFips yearMaps f).length < 2 → estimateElasticity yearMaps f = 1) ∧
    (2 ≤ (marginsForFips yearMaps f).length →
      estimateElasticity yearMaps f
        = clampQ (1/2 + ((consecAbsDeltas (marginsForFips yearMaps f)).sum
            / (((marginsForFips yearMaps f).length - 1 : ℕ) : ℚ)) / 5) (1/2) 3) ∧
    1/2 ≤ estimateElasticity yearMaps f ∧ estimateElasticity yearMaps f ≤ 3 := by
  refine ⟨?_, ?_,
    (elasticityFromMargins_mem (marginsForFips yearMaps f)).1,
    (elasticityFromMargins_mem (marginsForFips yearMaps f)).2⟩
  · intro h
    unfold estimateElasticity elasticityFromMargins
    rw [if_neg (by omega)]
  · intro h
    unfold estimateElasticity elasticityFromMargins clampQ
    rw [if_pos h]

/-- C4 witness: two usable cycles with margins +10pp and +20pp give
elasticity `clamp(0.5 + 10/5, 0.5, 3) = 2.5`. -/
theorem C4_elasticity_witness :
    2 ≤ (marginsForFips [[("A", ⟨"A", "42", 55, 45, 100⟩)],
        [("A", ⟨"A", "42", 60, 40, 100⟩)]] "A").length ∧
    estimateElasticity [[("A", ⟨"A", "42", 55, 45, 100⟩)],
        [("A", ⟨"A", "42", 60, 40, 100⟩)]] "A"
      = clampQ (1/2 + ((consecAbsDeltas (marginsForFips
            [[("A", ⟨"A", "42", 55, 45, 100⟩)], [("A", ⟨"A", "42", 60, 40, 100⟩)]]
            "A")).sum
          / (((marginsForFips [[("A", ⟨"A", "42", 55, 45, 100⟩)],
              [("A", ⟨"A", "42", 60, 40, 100⟩)]] "A").length - 1 : ℕ) : ℚ)) / 5)
          (1/2) 3 := by
  have hlen : (marginsForFips [[("A", ⟨"A", "42", 55, 45, 100⟩)],
      [("A", ⟨"A", "42", 60, 40, 100⟩)]] "A").length = 2 := by
    simp [marginsForFips, List.lookup]
  exact ⟨by omega,
    (C4_elasticity [[("A", ⟨"A", "42", 55, 45, 100⟩)],
      [("A", ⟨"A", "42", 60, 40, 100⟩)]] "A").2.1 (by omega)⟩

/-- C5: a finite target within 0.05pp of the current aggregate margin makes
the solver return the cleared no-op state — empty local-swing map and solver
inactive — so the local swing applied to every county is zero. -/
theorem C5_noop_within_tolerance (mode : SolverMode) (env : SwingEnv)
    (yearMaps : List (List (String × CountyBaseline)))
    (entries : List CountyBaseline) (tgt : ℚ)
    (h : |tgt - computeCurrentStatewideMarginNoLocal env entries| < 1/20) :
    runSolver mode (some tgt) env yearMaps entries = .ok ⟨[], false⟩ ∧
    ∀ f, appliedLocal ⟨[], false⟩ f = (0, 0) := by
  refine ⟨?_, fun f => rfl⟩
  simp only [runSolver, if_pos h]

/-- C5 witness: target −4.99pp against a current aggregate of −5pp. -/
theorem C5_noop_within_tolerance_witness :
    runSolver .uniform (some (-499/100)) ⟨0, 0, false, []⟩ []
        [⟨"A", "42", 55, 45, 100⟩, ⟨"B", "42", 135, 165, 300⟩]
      = .ok ⟨[], false⟩ :=
  (C5_noop_within_tolerance .uniform ⟨0, 0, false, []⟩ []
    [⟨"A", "42", 55, 45, 100⟩, ⟨"B", "42", 135, 165, 300⟩] (-499/100)
    (by
      have hc : computeCurrentStatewideMarginNoLocal ⟨0, 0, false, []⟩
          [⟨"A", "42", 55, 45, 100⟩, ⟨"B", "42", 135, 165, 300⟩] = -5 := by
        norm_num [computeCurrentStatewideMarginNoLocal, marginNoLocalUsed,
          projectedSwing, solverLocalFor, renormDG, clampQ, totalTurnout]
      rw [hc, show (-499/100 : ℚ) - -5 = 1/100 by norm_num,
        abs_of_nonneg (by norm_num : (0:ℚ) ≤ 1/100)]
      norm_num)).1

/-- C6 counterexample: with an empty scope and the finite target 0, the
solver hits the no-op tolerance branch first (the current aggregate of an
empty scope is 0 and `|0 - 0| < 0.05`) and returns the cleared no-op state,
not an `EmptyScopeError` — refuting the claim that every empty scope fails
with `EmptyScopeError`. -/
theorem C6_counterexample :
    runSolver .uniform (some 0) ⟨0, 0, false, []⟩ [] [] = .ok ⟨[], false⟩ ∧
    runSolver .uniform (some 0) ⟨0, 0, false, []⟩ [] []
      ≠ .error .emptyScope := by
  have h : runSolver .uniform (some 0) ⟨0, 0, false, []⟩ [] [] = .ok ⟨[], false⟩ := by
    norm_num [runSolver, computeCurrentStatewideMarginNoLocal]
  exact ⟨h, by simp [h]⟩

/-- C6 amended: the solver fails with `InvalidTargetError` for every
non-finite target, and with `EmptyScopeError` for every empty or
zero-turnout scope whose target is at least 0.05pp from the current
aggregate margin (a closer target takes the no-op branch first); in both
failure cases no per-unit local swings are produced. -/
theorem C6_amended_errors (mode : SolverMode) (env : SwingEnv)
    (yearMaps : List (List (String × CountyBaseline)))
    (entries : List CountyBaseline) :
    runSolver mode none env yearMaps entries = .error .invalidTarget ∧
    (∀ tgt : ℚ, 1/20 ≤ |tgt - computeCurrentStatewideMarginNoLocal env entries| →
      totalTurnout entries ≤ 0 →
      runSolver mode (some tgt) env yearMaps entries = .error .emptyScope) := by
  refine ⟨rfl, ?_⟩
  intro tgt hδ hT0
  by_cases he : entries.isEmpty
  · simp only [runSolver, if_neg (not_lt.mpr hδ), he, if_true]
  · simp only [runSolver, if_neg (not_lt.mpr hδ), he, Bool.false_eq_true, if_false,
      if_pos hT0]

/-- C6 amended witness: a non-finite target errors immediately; an empty
scope with target 5pp errors with the empty-scope error. -/
theorem C6_amended_errors_witness :
    runSolver .uniform none ⟨0, 0, false, []⟩ [] [] = .error .invalidTarget ∧
    runSolver .uniform (some 5) ⟨0, 0, false, []⟩ [] [] = .error .emptyScope :=
  ⟨(C6_amended_errors .uniform ⟨0, 0, false, []⟩ [] []).1,
    (C6_amended_errors .uniform ⟨0, 0, false, []⟩ [] []).2 5
      (by norm_num [computeCurrentStatewideMarginNoLocal])
      (by norm_num [totalTurnout])⟩

/-- C1: for a scope with positive aggregate turnout and a finite target at
least 0.05pp from the current aggregate, the solver in either mode returns
an active allocation whose turnout-weighted per-unit margin deltas sum
exactly to `delta = target − current`; in uniform mode every per-unit delta
equals `delta`. -/
theorem C1_solver_invariant (mode : SolverMode) (env : SwingEnv)
    (yearMaps : List (List (String × CountyBaseline)))
    (entries : List CountyBaseline) (tgt : ℚ)
    (hT : 0 < totalTurnout entries)
    (hδ : 1/20 ≤ |tgt - computeCurrentStatewideMarginNoLocal env entries|) :
    ∃ res : SolverResult,
      runSolver mode (some tgt) env yearMaps entries = .ok res ∧
      res.active = true ∧
      ((entries.zip res.locals).map
          (fun p => weightOf entries p.1 * dUnitOf p.2)).sum
        = tgt - computeCurrentStatewideMarginNoLocal env entries ∧
      (mode = .uniform → ∀ l ∈ res.locals,
        dUnitOf l = tgt - computeCurrentStatewideMarginNoLocal env entries) := by
  have hne : entries.isEmpty = false := by
    cases entries with
    | nil => simp [totalTurnout] at hT
    | cons a l => rfl
  have hTn : ¬ totalTurnout entries ≤ 0 := not_le.mpr hT
  have hdpos := solverDenom_pos mode yearMaps entries hT
  have hguard := solverDenomGuarded_eq mode yearMaps entries hT
  refine ⟨⟨entries.map (fun b =>
      (b.fips, (-(dCountyOf mode yearMaps entries
          (tgt - computeCurrentStatewideMarginNoLocal env entries) b / 2),
        dCountyOf mode yearMaps entries
          (tgt - computeCurrentStatewideMarginNoLocal env entries) b / 2))), true⟩,
    ?_, rfl, ?_, ?_⟩
  · simp only [runSolver, if_neg (not_lt.mpr hδ), hne, Bool.false_eq_true, if_false,
      if_neg hTn]
  · rw [zip_map_eval entries _ (fun a p => weightOf entries a * dUnitOf p)]
    have hcong : entries.map (fun b => weightOf entries b *
        dUnitOf (b.fips, (-(dCountyOf mode yearMaps entries
            (tgt - computeCurrentStatewideMarginNoLocal env entries) b / 2),
          dCountyOf mode yearMaps entries
            (tgt - computeCurrentStatewideMarginNoLocal env entries) b / 2)))
        = entries.map (fun b =>
            ((tgt - computeCurrentStatewideMarginNoLocal env entries)
                / solverDenom mode yearMaps entries)
              * (max 0 b.totalVotes2024 / totalTurnout entries
                  * effElast mode yearMaps b)) := by
      apply List.map_congr_left
      intro b _
      rw [dUnitOf_pair, dCountyOf, hguard, weightOf]
      ring
    rw [hcong, List.sum_map_mul_left, ← solverDenom,
      div_mul_cancel₀ _ (ne_of_gt hdpos)]
  · intro hm l hl
    subst hm
    obtain ⟨b, hb, rfl⟩ := List.mem_map.mp hl
    have hden1 : solverDenom SolverMode.uniform yearMaps entries = 1 := by
      unfold solverDenom
      simp only [effElast, mul_one]
      exact sum_weights entries hT
    rw [dUnitOf_pair, dCountyOf, hguard, hden1]
    simp [effElast]

/-- C1 witness: uniform mode, two counties (turnouts 100 and 300, current
aggregate −5pp), target +5pp: the solver succeeds and the weighted deltas
sum to the 10pp shift, each county moving exactly 10pp. -/
theorem C1_solver_invariant_witness :
    ∃ res : SolverResult,
      runSolver .uniform (some 5) ⟨0, 0, false, []⟩ []
          [⟨"A", "42", 55, 45, 100⟩, ⟨"B", "42", 135, 165, 300⟩] = .ok res ∧
      res.active = true ∧
      (([(⟨"A", "42", 55, 45, 100⟩ : CountyBaseline),
          ⟨"B", "42", 135, 165, 300⟩].zip res.locals).map
          (fun p => weightOf [⟨"A", "42", 55, 45, 100⟩, ⟨"B", "42", 135, 165, 300⟩] p.1
            * dUnitOf p.2)).sum
        = 5 - computeCurrentStatewideMarginNoLocal ⟨0, 0, false, []⟩
            [⟨"A", "42", 55, 45, 100⟩, ⟨"B", "42", 135, 165, 300⟩] ∧
      (SolverMode.uniform = .uniform → ∀ l ∈ res.locals,
        dUnitOf l = 5 - computeCurrentStatewideMarginNoLocal ⟨0, 0, false, []⟩
          [⟨"A", "42", 55, 45, 100⟩, ⟨"B", "42", 135, 165, 300⟩]) :=
  C1_solver_invariant .uniform ⟨0, 0, false, []⟩ []
    [⟨"A", "42", 55, 45, 100⟩, ⟨"B", "42", 135, 165, 300⟩] 5
    (by norm_num [totalTurnout])
    (by
      have hc : computeCurrentStatewideMarginNoLocal ⟨0, 0, false, []⟩
          [⟨"A", "42", 55, 45, 100⟩, ⟨"B", "42", 135, 165, 300⟩] = -5 := by
        norm_num [computeCurrentStatewideMarginNoLocal, marginNoLocalUsed,
          projectedSwing, solverLocalFor, renormDG, clampQ, totalTurnout]
      rw [hc, show (5 : ℚ) - -5 = 10 by norm_num,
        abs_of_nonneg (by norm_num : (0:ℚ) ≤ 10)]
      norm_num)

end ElectionAnalytics
